import Mathlib

/-!
Verification development for the NGO-InvoiceFiler document integrity and
lifecycle engine.  The definitions below are a shallow embedding of the
Python sources (`schemas.py`, `filing.py`, `validator.py`, `ledger.py`,
`ocr_parser.py`): Python floats are modelled as exact rationals, Python
`date`/`datetime` values as integer day ordinals (only ordering and
day-differences are used by the embedded code), optional/falsy values as
`Option` with explicit Python-truthiness helpers, and raised exceptions as
`Except.error` results paired with the post-mutation state of the record
that the Python code mutates in place.
-/

namespace InvoiceFiler

/-- Document lifecycle status (schemas.py, class Status). -/
inductive Status
  | draft
  | needs_review
  | approved
  | posted
deriving DecidableEq, Repr, BEq

/-- String value of a status (the Python enum value). -/
def Status.value : Status → String
  | .draft => "draft"
  | .needs_review => "needs_review"
  | .approved => "approved"
  | .posted => "posted"

/-- Validation flag severity (schemas.py, class FlagSeverity). -/
inductive FlagSeverity
  | low
  | medium
  | high
deriving DecidableEq, Repr, BEq

/-- Validation flag type (schemas.py, class FlagType). -/
inductive FlagType
  | math_mismatch
  | missing_field
  | suspicious_date
  | currency_mismatch
  | tax_anomaly
  | duplicate
  | vendor_mismatch
  | ocr_low_confidence
  | parse_failed
deriving DecidableEq, Repr, BEq

/-- Deduplication status (schemas.py, class DedupeStatus). -/
inductive DedupeStatus
  | unique
  | duplicate
  | suspected_duplicate
deriving DecidableEq, Repr, BEq

/-- Document type (schemas.py, class DocType). -/
inductive DocType
  | invoice
  | receipt
  | credit_note
  | proforma
  | other
deriving DecidableEq, Repr, BEq

/-- Validation flag (schemas.py, class ValidationFlag).  The free-text
`message` field of the Python dataclass is not modelled: no embedded check
branches on it. -/
structure ValidationFlag where
  type : FlagType
  severity : FlagSeverity
  field : String
deriving DecidableEq, Repr

/-- Python truthiness of an optional string: `None` and `""` are falsy. -/
def strTruthy : Option String → Bool
  | none => false
  | some s => s ≠ ""

/-- Python truthiness of an optional number: `None` and `0` are falsy. -/
def ratTruthy : Option ℚ → Bool
  | none => false
  | some q => q ≠ 0

/-- Helper: whether an `Except` result is an error (a raised exception). -/
def isErrorB {ε α : Type} : Except ε α → Bool
  | .error _ => true
  | .ok _ => false

/-- Filing info record mutated by the approval workflow (filing.py, the
dict returned by `generate_filing_info`, plus the
`has_high_severity_flags` key read by `transition`).  `approved_at` is a
timestamp, modelled as an integer instant. -/
structure FilingInfo where
  folder_path : String
  file_name : String
  status : Status
  approver : Option String
  approved_at : Option ℤ
  has_high_severity_flags : Bool
deriving DecidableEq, Repr

/-- Valid status transitions (filing.py, ApprovalWorkflow.TRANSITIONS). -/
def TRANSITIONS : Status → List Status
  | .draft => [.needs_review, .approved]
  | .needs_review => [.draft, .approved]
  | .approved => [.posted]
  | .posted => []

/-- Check whether a status transition is valid
(filing.py, ApprovalWorkflow.can_transition). -/
def can_transition (current target : Status) : Bool :=
  (TRANSITIONS current).contains target

/-- Test whether a character list contains two consecutive underscores. -/
def hasUS : List Char → Bool
  | [] => false
  | [_] => false
  | c1 :: c2 :: rest => (c1 = '_' && c2 = '_') || hasUS (c2 :: rest)

/-- Python `s.split("__")` on a character list: greedy left-to-right scan
for non-overlapping occurrences of the two-character separator. -/
def splitUS : List Char → List (List Char)
  | [] => [[]]
  | [c] => [[c]]
  | c1 :: c2 :: rest =>
    if c1 = '_' ∧ c2 = '_' then
      [] :: splitUS rest
    else
      (c1 :: (splitUS (c2 :: rest)).headD []) :: (splitUS (c2 :: rest)).tail

/-- Python `"__".join(parts)` on character lists. -/
def joinUS : List (List Char) → List Char
  | [] => []
  | [p] => p
  | p :: q :: rest => p ++ '_' :: '_' :: joinUS (q :: rest)

/-- Python `s.rsplit('.', 1)`: split off the part after the last dot.
Returns the stem and, when a dot exists, the extension after it. -/
def rsplit_dot : List Char → List Char × Option (List Char)
  | [] => ([], none)
  | c :: rest =>
    match rsplit_dot rest with
    | (stem, some ext) => (c :: stem, some ext)
    | (_, none) => if c = '.' then ([], some rest) else (c :: rest, none)

/-- Rewrite the trailing status component of a file name
(filing.py, ApprovalWorkflow._update_filename_status). -/
def update_filename_status (file_name : String) (new_status : Status) : String :=
  let parts := rsplit_dot file_name.data
  let name_parts := splitUS parts.1
  let name_parts' :=
    if 2 ≤ name_parts.length then name_parts.dropLast ++ [new_status.value.data]
    else name_parts
  let new_name := joinUS name_parts'
  match parts.2 with
  | some ext => String.mk (new_name ++ '.' :: ext)
  | none => String.mk new_name

/-- The trailing status component of a file name: the last
double-underscore-separated component of the part before the last dot. -/
def trailing_status (file_name : String) : String :=
  String.mk ((splitUS (rsplit_dot file_name.data).1).getLastD [])

/-- Status transition (filing.py, ApprovalWorkflow.transition).  The Python
function mutates `filing_info` in place and raises `ValueError` on invalid
input; the embedding returns the raised-or-returned outcome together with
the state of the record when control leaves the function, so that partial
mutation before a raise is observable.  `now` stands for
`datetime.utcnow()`. -/
def transition (filing_info : FilingInfo) (new_status : Status)
    (approver : Option String) (now : ℤ) :
    Except String FilingInfo × FilingInfo :=
  let current_status := filing_info.status
  if ¬ can_transition current_status new_status then
    (.error ("Invalid transition from " ++ current_status.value ++ " to " ++
      new_status.value), filing_info)
  else if new_status = Status.posted ∧ filing_info.has_high_severity_flags then
    (.error "Cannot post document with high-severity validation flags", filing_info)
  else
    let fi1 : FilingInfo := { filing_info with status := new_status }
    if new_status = Status.approved ∧ ¬ strTruthy approver then
      (.error "Approver name required for approval", fi1)
    else
      let fi2 : FilingInfo :=
        if new_status = Status.approved then
          { fi1 with approver := approver, approved_at := some now }
        else fi1
      let fi3 : FilingInfo :=
        { fi2 with file_name := update_filename_status fi2.file_name new_status }
      (.ok fi3, fi3)

/-- Amounts dictionary of a parsed document (schemas.py, class Totals, as
consumed by validator.py).  Keys the pipeline always fills are plain
rationals; keys that may hold `None` are options. -/
structure Amounts where
  subtotal : ℚ
  tax_amount : ℚ
  tax_rate : Option ℚ
  shipping : Option ℚ
  discount : Option ℚ
  grand_total : ℚ
deriving DecidableEq, Repr

/-- Line item, restricted to the fields validator.py reads. -/
structure LineItem where
  total : Option ℚ
deriving DecidableEq, Repr

/-- Issue and due dates of a document as day ordinals (validator.py only
compares dates and takes day differences). -/
structure Dates where
  issue_date : Option ℤ
  due_date : Option ℤ
deriving DecidableEq, Repr

/-- Vendor block, restricted to the fields validator.py reads. -/
structure Vendor where
  display_name : String
  tax_id_vat : Option String
  email : Option String
  phone : Option String
deriving DecidableEq, Repr

/-- Parsed document fields consumed by ValidationEngine.validate. -/
structure ParsedData where
  amounts : Amounts
  line_items : List LineItem
  dates : Dates
  currency : String
  vendor : Vendor
  confidence : Option ℚ
deriving DecidableEq, Repr

/-- Grant dictionary entry (schemas.py OrganizationProfile.grant_dictionary
values), restricted to the key filing.py reads. -/
structure GrantInfo where
  donor : Option String
deriving DecidableEq, Repr

/-- Organization profile (schemas.py, class OrganizationProfile), restricted
to the fields the embedded code reads.  Python dicts are association
lists. -/
structure OrgProfile where
  fiscal_year_start_month : ℕ
  vat_rules : List (String × ℚ)
  project_codes : List (String × String)
  grant_dictionary : List (String × GrantInfo)
deriving Repr

/-- Existing ledger record as seen by the duplicate check (validator.py,
`self.existing_docs` elements; `dict.get` yields an option). -/
structure ExistingDoc where
  checksum_sha256 : Option String
  doc_fingerprint : Option String
deriving DecidableEq, Repr

/-- Rounding tolerance in currency units (validator.py, EPSILON). -/
def EPSILON : ℚ := 2 / 100

/-- Math validation (validator.py, ValidationEngine._validate_math):
recompute the grand total and compare within EPSILON; additionally compare
the line-item sum against the subtotal. -/
def validate_math (amounts : Amounts) (line_items : List LineItem) :
    List ValidationFlag :=
  let subtotal := amounts.subtotal
  let tax := amounts.tax_amount
  let shipping := amounts.shipping.getD 0
  let discount := amounts.discount.getD 0
  let grand_total := amounts.grand_total
  let computed_total := subtotal + tax + shipping - discount
  let diff := |computed_total - grand_total|
  let f1 : List ValidationFlag :=
    if EPSILON < diff then
      [⟨.math_mismatch, .high, "totals.grand_total"⟩]
    else []
  let f2 : List ValidationFlag :=
    if line_items ≠ [] then
      let lines_sum := (line_items.map (fun item => item.total.getD 0)).sum
      if 0 < lines_sum ∧ EPSILON < |lines_sum - subtotal| then
        [⟨.math_mismatch, .medium, "totals.subtotal"⟩]
      else []
    else []
  f1 ++ f2

/-- Date validation (validator.py, ValidationEngine._validate_dates).
`today` stands for `date.today()`, read from the wall clock in Python. -/
def validate_dates (dates : Dates) (today : ℤ) : List ValidationFlag :=
  let f1 : List ValidationFlag :=
    match dates.issue_date, dates.due_date with
    | some issue, some due =>
      if due < issue then [⟨.suspicious_date, .high, "dates.due_date"⟩] else []
    | _, _ => []
  let f2 : List ValidationFlag :=
    match dates.issue_date with
    | some issue =>
      if 730 < |issue - today| then
        [⟨.suspicious_date, .medium, "dates.issue_date"⟩]
      else []
    | none => [⟨.missing_field, .medium, "dates.issue_date"⟩]
  f1 ++ f2

/-- Tax validation (validator.py, ValidationEngine._validate_tax). -/
def validate_tax (amounts : Amounts) (currency : String)
    (vat_rules : List (String × ℚ)) : List ValidationFlag :=
  if 0 < amounts.tax_amount ∧ 0 < amounts.subtotal then
    let effective_rate := amounts.tax_amount / amounts.subtotal * 100
    let f1 : List ValidationFlag :=
      if ratTruthy amounts.tax_rate ∧
          1 / 2 < |effective_rate - amounts.tax_rate.getD 0| then
        [⟨.tax_anomaly, .medium, "totals.tax_rate"⟩]
      else []
    let f2 : List ValidationFlag :=
      match vat_rules.lookup currency with
      | some expected_rate =>
        if 1 < |effective_rate - expected_rate| then
          [⟨.tax_anomaly, .low, "totals.tax_amount"⟩]
        else []
      | none => []
    f1 ++ f2
  else []

/-- Recognized ISO 4217 currency codes
(validator.py, ValidationEngine._validate_currency). -/
def valid_currencies : List String :=
  ["USD", "EUR", "GBP", "JPY", "CHF", "CAD", "AUD", "NZD",
   "ILS", "INR", "CNY", "KRW", "SGD", "HKD", "THB", "MXN",
   "BRL", "ZAR", "RUB", "TRY", "SEK", "NOK", "DKK", "PLN"]

/-- Currency validation (validator.py, ValidationEngine._validate_currency). -/
def validate_currency (currency : String) : List ValidationFlag :=
  if valid_currencies.contains currency then []
  else [⟨.currency_mismatch, .medium, "currency"⟩]

/-- Vendor validation (validator.py, ValidationEngine._validate_vendor). -/
def validate_vendor (vendor : Vendor) : List ValidationFlag :=
  let f1 : List ValidationFlag :=
    if vendor.display_name = "" ∨ vendor.display_name = "Unknown Vendor" then
      [⟨.missing_field, .high, "vendor.display_name"⟩]
    else []
  let f2 : List ValidationFlag :=
    if strTruthy vendor.tax_id_vat || strTruthy vendor.email ||
        strTruthy vendor.phone then []
    else [⟨.vendor_mismatch, .low, "vendor"⟩]
  f1 ++ f2

/-- Duplicate check (validator.py, ValidationEngine._check_duplicate):
first scan for an exact checksum match, then for a fingerprint match.
Returns the dedupe status and the flags the check appends. -/
def check_duplicate (checksum fingerprint : String)
    (existing_docs : List ExistingDoc) :
    DedupeStatus × List ValidationFlag :=
  match existing_docs.find? (fun doc => doc.checksum_sha256 == some checksum) with
  | some _ =>
    (.duplicate, [⟨.duplicate, .high, "validation.checksum_sha256"⟩])
  | none =>
    match existing_docs.find? (fun doc => doc.doc_fingerprint == some fingerprint) with
    | some _ =>
      (.suspected_duplicate, [⟨.duplicate, .high, "validation.doc_fingerprint"⟩])
    | none => (.unique, [])

/-- Round a rational to two decimal places (Python `round(x, 2)`). -/
def round2 (q : ℚ) : ℚ := (round (q * 100) : ℤ) / 100

/-- Confidence score (validator.py,
ValidationEngine._compute_confidence_score), computed over the flag list
accumulated by all previous checks. -/
def compute_confidence_score (parsed_data : ParsedData)
    (flags : List ValidationFlag) : ℚ :=
  let base_score := parsed_data.confidence.getD (9 / 10)
  let required_fields : List Bool :=
    [parsed_data.vendor.display_name ≠ "",
     parsed_data.dates.issue_date.isSome,
     parsed_data.amounts.grand_total ≠ 0,
     parsed_data.currency ≠ ""]
  let completeness : ℚ := (required_fields.count true : ℚ) / 4
  let high_flags := flags.countP (fun f => f.severity == .high)
  let medium_flags := flags.countP (fun f => f.severity == .medium)
  let penalty : ℚ := high_flags * (15 / 100) + medium_flags * (5 / 100)
  let final_score := max 0 (min 1 (base_score * completeness - penalty))
  round2 final_score

/-- Validation result (the dict returned by ValidationEngine.validate,
without the audit log). -/
structure ValidationResult where
  checksum_sha256 : String
  doc_fingerprint : String
  dedupe_status : DedupeStatus
  score_confidence : ℚ
  flags : List ValidationFlag
deriving DecidableEq, Repr

/-- Full validation pipeline (validator.py, ValidationEngine.validate):
math, dates, tax, currency, vendor, duplicate and OCR-confidence checks in
order, then the confidence score over every accumulated flag.  `today`
stands for `date.today()`. -/
def validate (profile : OrgProfile) (existing_docs : List ExistingDoc)
    (parsed_data : ParsedData) (checksum fingerprint : String) (today : ℤ) :
    ValidationResult :=
  let f1 := validate_math parsed_data.amounts parsed_data.line_items
  let f2 := validate_dates parsed_data.dates today
  let f3 := validate_tax parsed_data.amounts parsed_data.currency profile.vat_rules
  let f4 := validate_currency parsed_data.currency
  let f5 := validate_vendor parsed_data.vendor
  let dedupe := check_duplicate checksum fingerprint existing_docs
  let f7 : List ValidationFlag :=
    if parsed_data.confidence.getD 1 < 3 / 4 then
      [⟨.ocr_low_confidence, .medium, "confidence"⟩]
    else []
  let flags := f1 ++ f2 ++ f3 ++ f4 ++ f5 ++ dedupe.2 ++ f7
  let score := compute_confidence_score parsed_data flags
  { checksum_sha256 := checksum
    doc_fingerprint := fingerprint
    dedupe_status := dedupe.1
    score_confidence := score
    flags := flags }

/-- Decimal digit character for `n % 10`. -/
def digitChar (n : ℕ) : Char :=
  match n % 10 with
  | 0 => '0' | 1 => '1' | 2 => '2' | 3 => '3' | 4 => '4'
  | 5 => '5' | 6 => '6' | 7 => '7' | 8 => '8' | _ => '9'

/-- Numeric value of a decimal digit character. -/
def digitVal (c : Char) : ℕ :=
  match c with
  | '0' => 0 | '1' => 1 | '2' => 2 | '3' => 3 | '4' => 4
  | '5' => 5 | '6' => 6 | '7' => 7 | '8' => 8 | _ => 9

/-- Fuel-driven digit rendering; the fuel only bounds the recursion depth
so that the definition is structurally recursive. -/
def natDigitsGo : ℕ → ℕ → List Char
  | 0, _ => []
  | fuel + 1, n =>
    if n < 10 then [digitChar n]
    else natDigitsGo fuel (n / 10) ++ [digitChar (n % 10)]

/-- Decimal digit characters of a natural number (Python `str(n)`). -/
def natDigits (n : ℕ) : List Char :=
  natDigitsGo (n + 1) n

theorem natDigitsGo_congr :
    ∀ (n f1 f2 : ℕ), n < f1 → n < f2 → natDigitsGo f1 n = natDigitsGo f2 n := by
  intro n
  induction n using Nat.strong_induction_on with
  | _ n ih =>
    intro f1 f2 h1 h2
    match f1, f2 with
    | 0, _ => omega
    | _ + 1, 0 => omega
    | fuel1 + 1, fuel2 + 1 =>
      simp only [natDigitsGo]
      split_ifs with h
      · rfl
      · rw [ih (n / 10) (by omega) fuel1 fuel2 (by omega) (by omega)]

/-- Unfolding rule of `natDigits`: most-significant digits first. -/
theorem natDigits_eq (n : ℕ) :
    natDigits n =
      if n < 10 then [digitChar n]
      else natDigits (n / 10) ++ [digitChar (n % 10)] := by
  have hstep : natDigitsGo (n + 1) n =
      if n < 10 then [digitChar n]
      else natDigitsGo n (n / 10) ++ [digitChar (n % 10)] := rfl
  unfold natDigits
  rw [hstep]
  split_ifs with h
  · rfl
  · rw [natDigitsGo_congr (n / 10) n (n / 10 + 1) (by omega) (by omega)]

/-- Value of a decimal digit string (left inverse of `natDigits`). -/
def digitsVal (cs : List Char) : ℕ :=
  cs.foldl (fun acc c => 10 * acc + digitVal c) 0

/-- Zero-padded two-digit rendering (Python `%02d`, and the two decimal
places of `%.2f`). -/
def pad2 (n : ℕ) : List Char :=
  if n < 10 then ['0', digitChar n] else natDigits n

/-- Zero-padded four-digit rendering (Python `%Y` for years below 10000). -/
def pad4 (n : ℕ) : List Char :=
  List.replicate (4 - (natDigits n).length) '0' ++ natDigits n

/-- Python `int()` truncation toward zero of a float, as a rational. -/
def intPy (q : ℚ) : ℤ :=
  if 0 ≤ q then ⌊q⌋ else ⌈q⌉

/-- Decimal rendering of an integer (Python `str(int(x))`). -/
def intStr (z : ℤ) : String :=
  if z < 0 then "-" ++ String.mk (natDigits (-z).toNat)
  else String.mk (natDigits z.toNat)

/-- Calendar date with explicit components, used where the Python code
formats a `date` with `strftime`. -/
structure FpDate where
  year : ℕ
  month : ℕ
  day : ℕ
deriving DecidableEq, Repr

/-- Python word-character test (`\w`), on the ASCII range: letters, digits
and the underscore. -/
def isWordChar (c : Char) : Bool :=
  c.isAlphanum || c = '_'

/-- Name sanitizer (filing.py, FilingSystem._sanitize_name): replace spaces
with underscores, keep only word characters, lowercase.  The Unicode NFD
diacritic-stripping step is the identity on the ASCII inputs modelled
here. -/
def sanitize_name (name : String) : String :=
  String.mk
    (((name.data.map (fun c => if c = ' ' then '_' else c)).filter
      isWordChar).map Char.toLower)

/-- Name truncation (filing.py, FilingSystem._truncate_name). -/
def truncate_name (name : String) (max_len : ℕ) : String :=
  if name.length ≤ max_len then name
  else String.mk (name.data.take max_len)

/-- Folder label of a document type (filing.py, the `doc_type_map` in
`_build_folder_path`; the map covers every member, so the `"Other"`
default of `dict.get` is never taken). -/
def doc_type_label : DocType → String
  | .invoice => "Invoice"
  | .receipt => "Receipt"
  | .credit_note => "CreditNote"
  | .proforma => "Proforma"
  | .other => "Other"

/-- Segment list of the filing folder path
(filing.py, FilingSystem._build_folder_path, the `parts` list). -/
def build_folder_path_parts (profile : OrgProfile) (fiscal_year : String)
    (project_code grant_code : Option String) (vendor_name : String)
    (doc_type : DocType) : List String :=
  let project_part :=
    if strTruthy project_code then
      let code := project_code.getD ""
      let project_name := (profile.project_codes.lookup code).getD "Unknown"
      code ++ "-" ++ truncate_name project_name 20
    else "NoProject"
  let grant_part :=
    if strTruthy grant_code then
      let code := grant_code.getD ""
      let donor_name :=
        match profile.grant_dictionary.lookup code with
        | some info => info.donor.getD "Unknown"
        | none => "Unknown"
      code ++ "-" ++ truncate_name donor_name 15
    else "NoGrant"
  [fiscal_year, project_part, grant_part, sanitize_name vendor_name,
   doc_type_label doc_type]

/-- Filing folder path (filing.py, FilingSystem._build_folder_path). -/
def build_folder_path (profile : OrgProfile) (fiscal_year : String)
    (project_code grant_code : Option String) (vendor_name : String)
    (doc_type : DocType) : String :=
  String.intercalate "/"
    (build_folder_path_parts profile fiscal_year project_code grant_code
      vendor_name doc_type)

/-- Component list of the deterministic file name
(filing.py, FilingSystem._build_file_name, the `parts` list). -/
def build_file_name_parts (issue_date : FpDate) (vendor_name : String)
    (invoice_num : Option String) (project_code grant_code : Option String)
    (amount : ℚ) (currency : String) (status : Status) : List String :=
  let date_part :=
    String.mk (pad4 issue_date.year ++ '-' :: pad2 issue_date.month ++
      '-' :: pad2 issue_date.day)
  let vendor_part := truncate_name (sanitize_name vendor_name) 30
  let invoice_part :=
    if strTruthy invoice_num then
      truncate_name (sanitize_name (invoice_num.getD "")) 20
    else "NOREF"
  let project_part := if strTruthy project_code then project_code.getD "" else "NOPROJ"
  let grant_part := if strTruthy grant_code then grant_code.getD "" else "NOGRANT"
  let amount_part := intStr (intPy amount) ++ currency
  [date_part, vendor_part, invoice_part, project_part, grant_part,
   amount_part, status.value]

/-- Deterministic file name (filing.py, FilingSystem._build_file_name);
`original_extension` includes the leading dot, `".pdf"` by default. -/
def build_file_name (issue_date : FpDate) (vendor_name : String)
    (invoice_num : Option String) (project_code grant_code : Option String)
    (amount : ℚ) (currency : String) (status : Status)
    (original_extension : String) : String :=
  String.intercalate "__"
    (build_file_name_parts issue_date vendor_name invoice_num project_code
      grant_code amount currency status) ++ original_extension

/-- Vendor normalization inside the fingerprint (ocr_parser.py,
DocumentHasher.compute_fingerprint: `re.sub(r'\W+', '', vendor.lower())`,
on the ASCII range). -/
def fingerprint_vendor_norm (vendor : String) : String :=
  String.mk ((vendor.data.map Char.toLower).filter isWordChar)

/-- Date component of the fingerprint (`date.strftime('%Y%m%d')`, or the
sentinel for a missing date). -/
def fp_date_str : Option FpDate → String
  | some d => String.mk (pad4 d.year ++ pad2 d.month ++ pad2 d.day)
  | none => "NODATE"

/-- Invoice-number component of the fingerprint. -/
def fp_inv_str (invoice_num : Option String) : String :=
  if strTruthy invoice_num then
    String.mk (((invoice_num.getD "").data.map Char.toLower).filter isWordChar)
  else "NOINV"

/-- Amount in cents as rendered by Python `f"{amount:.2f}"`: the nearest
integer number of cents (the embedded amounts are exact in cents, so the
float rounding mode is immaterial). -/
def amt_cents (amount : ℚ) : ℤ := round (amount * 100)

/-- Digit string of a non-negative cent count: integer part followed by the
two decimal digits, i.e. `f"{x:.2f}".replace('.', '')`. -/
def cents_digits (n : ℕ) : List Char :=
  natDigits (n / 100) ++ pad2 (n % 100)

/-- Amount component of the fingerprint
(`f"{amount:.2f}".replace('.', '')`). -/
def amt_str (amount : ℚ) : String :=
  let c := amt_cents amount
  if c < 0 then "-" ++ String.mk (cents_digits (-c).toNat)
  else String.mk (cents_digits c.toNat)

/-- Fingerprint pre-image string (ocr_parser.py,
DocumentHasher.compute_fingerprint, the local `fingerprint_str` that is
then MD5-hashed and truncated to 16 hex characters).  The hash step is a
fixed deterministic function of this string and is not modelled: equality
of fingerprints is stated on the hashed pre-image. -/
def fingerprint_str (vendor : String) (date : Option FpDate)
    (invoice_num : Option String) (amount : ℚ) : String :=
  fingerprint_vendor_norm vendor ++ "_" ++ fp_date_str date ++ "_" ++
    fp_inv_str invoice_num ++ "_" ++ amt_str amount

/-- Ledger row (schemas.py, class LedgerRow), keyed by `doc_id`; the
remaining nineteen non-key columns, none of which ledger.py's upsert logic
inspects, are bundled as `rest`. -/
structure LRow where
  doc_id : String
  rest : String
deriving DecidableEq, Repr

/-- Ledger upsert (ledger.py, LedgerManager.add_entry): scan for the first
row with the same `doc_id` and replace it in place, else append.  The
`_save_ledger` disk write has no effect on the in-memory list and is not
modelled. -/
def add_entry : List LRow → LRow → List LRow
  | [], row => [row]
  | entry :: rest, row =>
    if entry.doc_id == row.doc_id then row :: rest
    else entry :: add_entry rest row

/-- Ledger states reachable from the empty ledger through `add_entry`. -/
inductive ReachableLedger : List LRow → Prop
  | nil : ReachableLedger []
  | step (l : List LRow) (row : LRow) :
      ReachableLedger l → ReachableLedger (add_entry l row)

/-! Helper lemmas. -/

theorem ct_draft_draft : can_transition .draft .draft = false := rfl

theorem ct_draft_review : can_transition .draft .needs_review = true := rfl

theorem ct_draft_approved : can_transition .draft .approved = true := rfl

theorem ct_draft_posted : can_transition .draft .posted = false := rfl

theorem ct_review_draft : can_transition .needs_review .draft = true := rfl

theorem ct_review_review : can_transition .needs_review .needs_review = false := rfl

theorem ct_review_approved : can_transition .needs_review .approved = true := rfl

theorem ct_review_posted : can_transition .needs_review .posted = false := rfl

theorem ct_approved_draft : can_transition .approved .draft = false := rfl

theorem ct_approved_review : can_transition .approved .needs_review = false := rfl

theorem ct_approved_approved : can_transition .approved .approved = false := rfl

theorem ct_approved_posted : can_transition .approved .posted = true := rfl

theorem ct_posted_draft : can_transition .posted .draft = false := rfl

theorem ct_posted_review : can_transition .posted .needs_review = false := rfl

theorem ct_posted_approved : can_transition .posted .approved = false := rfl

theorem ct_posted_posted : can_transition .posted .posted = false := rfl

/-! Sample records used to instantiate universally quantified theorems. -/

/-- Sample filing record in draft status with a scheme-produced name. -/
def sample_fi : FilingInfo :=
  { folder_path := "2023-2024/NoProject/NoGrant/acme/Invoice"
    file_name := "2024-03-15__acme__inv001__NOPROJ__NOGRANT__1500USD__draft.pdf"
    status := Status.draft
    approver := none
    approved_at := none
    has_high_severity_flags := false }

/-- C1: `ApprovalWorkflow.transition` raises an error if and only if the
(current, target) pair is outside the transition table, or the target is
`approved` with an empty/absent approver, or the target is `posted` while
the record carries a HIGH-severity flag; a successful transition to
`approved` records the approver and an approval timestamp; and `posted`
has no outgoing transitions. -/
theorem claim_C1_transition_error_characterization :
    (∀ (fi : FilingInfo) (new_status : Status) (approver : Option String)
        (now : ℤ),
      isErrorB (transition fi new_status approver now).1 = true ↔
        (can_transition fi.status new_status = false ∨
          (new_status = Status.approved ∧ strTruthy approver = false) ∨
          (new_status = Status.posted ∧ fi.has_high_severity_flags = true))) ∧
    (∀ (fi : FilingInfo) (approver : Option String) (now : ℤ)
        (fi' : FilingInfo),
      (transition fi Status.approved approver now).1 = Except.ok fi' →
      fi'.approver = approver ∧ fi'.approved_at = some now) ∧
    TRANSITIONS Status.posted = [] := by
  refine ⟨?_, ?_, rfl⟩
  · intro fi new_status approver now
    rcases fi with ⟨fp, fn, st, apr, aat, flags⟩
    cases st <;> cases new_status <;> cases flags <;>
      cases hap : strTruthy approver <;>
        simp [transition, ct_draft_draft, ct_draft_review, ct_draft_approved, ct_draft_posted, ct_review_draft, ct_review_review, ct_review_approved, ct_review_posted, ct_approved_draft, ct_approved_review, ct_approved_approved, ct_approved_posted, ct_posted_draft, ct_posted_review, ct_posted_approved, ct_posted_posted, isErrorB, hap]
  · intro fi approver now fi' h
    rcases fi with ⟨fp, fn, st, apr, aat, flags⟩
    cases st <;> cases hap : strTruthy approver <;>
      simp [transition, ct_draft_draft, ct_draft_review, ct_draft_approved, ct_draft_posted, ct_review_draft, ct_review_review, ct_review_approved, ct_review_posted, ct_approved_draft, ct_approved_review, ct_approved_approved, ct_approved_posted, ct_posted_draft, ct_posted_review, ct_posted_approved, ct_posted_posted, hap] at h <;>
        subst h <;> simp

/-- Witness for C1 at concrete inputs. -/
theorem claim_C1_transition_error_characterization_witness :
    (isErrorB (transition sample_fi Status.posted none 3).1 = true ↔
      (can_transition sample_fi.status Status.posted = false ∨
        (Status.posted = Status.approved ∧ strTruthy none = false) ∨
        (Status.posted = Status.posted ∧
          sample_fi.has_high_severity_flags = true))) ∧
    ((transition sample_fi Status.approved (some "alice") 3).1 =
        Except.ok ((transition sample_fi Status.approved (some "alice") 3).2) →
      ((transition sample_fi Status.approved (some "alice") 3).2).approver =
          some "alice" ∧
        ((transition sample_fi Status.approved (some "alice") 3).2).approved_at =
          some 3) :=
  ⟨claim_C1_transition_error_characterization.1 sample_fi Status.posted none 3,
   claim_C1_transition_error_characterization.2.1 sample_fi (some "alice") 3 _⟩

/-- C10: calling `transition` toward `approved` from a state where it is
legal, with an empty or absent approver, raises only after mutating the
record: the status field is already `approved` when the error is raised,
while file name, approver and approval timestamp are unchanged. -/
theorem claim_C10_mutation_before_approver_error :
    ∀ (fi : FilingInfo) (approver : Option String) (now : ℤ),
      (fi.status = Status.draft ∨ fi.status = Status.needs_review) →
      strTruthy approver = false →
      isErrorB (transition fi Status.approved approver now).1 = true ∧
      (transition fi Status.approved approver now).2.status = Status.approved ∧
      (transition fi Status.approved approver now).2.file_name = fi.file_name ∧
      (transition fi Status.approved approver now).2.approver = fi.approver ∧
      (transition fi Status.approved approver now).2.approved_at =
        fi.approved_at := by
  intro fi approver now hst hap
  rcases fi with ⟨fp, fn, st, apr, aat, flags⟩
  rcases hst with h | h <;> cases h <;>
    simp [transition, ct_draft_draft, ct_draft_review, ct_draft_approved, ct_draft_posted, ct_review_draft, ct_review_review, ct_review_approved, ct_review_posted, ct_approved_draft, ct_approved_review, ct_approved_approved, ct_approved_posted, ct_posted_draft, ct_posted_review, ct_posted_approved, ct_posted_posted, isErrorB, hap]

/-- Witness for C10 at concrete inputs. -/
theorem claim_C10_mutation_before_approver_error_witness :
    isErrorB (transition sample_fi Status.approved none 3).1 = true ∧
    (transition sample_fi Status.approved none 3).2.status = Status.approved ∧
    (transition sample_fi Status.approved none 3).2.file_name =
      sample_fi.file_name ∧
    (transition sample_fi Status.approved none 3).2.approver =
      sample_fi.approver ∧
    (transition sample_fi Status.approved none 3).2.approved_at =
      sample_fi.approved_at :=
  claim_C10_mutation_before_approver_error sample_fi none 3 (Or.inl rfl) rfl

/-- C3: the duplicate check returns `duplicate` with one HIGH flag exactly
when some existing record matches the checksum (regardless of fingerprint
matches); otherwise `suspected_duplicate` with one HIGH flag when some
record matches the fingerprint; otherwise `unique` with no flag. -/
theorem claim_C3_dedupe_priority :
    ∀ (checksum fingerprint : String) (existing : List ExistingDoc),
      ((∃ doc ∈ existing, doc.checksum_sha256 = some checksum) →
        check_duplicate checksum fingerprint existing =
          (DedupeStatus.duplicate,
            [⟨.duplicate, .high, "validation.checksum_sha256"⟩])) ∧
      ((∀ doc ∈ existing, doc.checksum_sha256 ≠ some checksum) →
        (∃ doc ∈ existing, doc.doc_fingerprint = some fingerprint) →
        check_duplicate checksum fingerprint existing =
          (DedupeStatus.suspected_duplicate,
            [⟨.duplicate, .high, "validation.doc_fingerprint"⟩])) ∧
      ((∀ doc ∈ existing, doc.checksum_sha256 ≠ some checksum) →
        (∀ doc ∈ existing, doc.doc_fingerprint ≠ some fingerprint) →
        check_duplicate checksum fingerprint existing =
          (DedupeStatus.unique, [])) := by
  intro checksum fingerprint existing
  refine ⟨?_, ?_, ?_⟩
  · rintro ⟨d, hd, he⟩
    have hs : (existing.find?
        (fun doc => doc.checksum_sha256 == some checksum)).isSome := by
      rw [List.find?_isSome]
      exact ⟨d, hd, by simp [he]⟩
    obtain ⟨v, hv⟩ := Option.isSome_iff_exists.mp hs
    simp [check_duplicate, hv]
  · intro hcs hfp
    have h1 : existing.find?
        (fun doc => doc.checksum_sha256 == some checksum) = none := by
      rw [List.find?_eq_none]
      intro d hd
      simpa using hcs d hd
    obtain ⟨d, hd, he⟩ := hfp
    have hs : (existing.find?
        (fun doc => doc.doc_fingerprint == some fingerprint)).isSome := by
      rw [List.find?_isSome]
      exact ⟨d, hd, by simp [he]⟩
    obtain ⟨v, hv⟩ := Option.isSome_iff_exists.mp hs
    simp [check_duplicate, h1, hv]
  · intro hcs hfp
    have h1 : existing.find?
        (fun doc => doc.checksum_sha256 == some checksum) = none := by
      rw [List.find?_eq_none]
      intro d hd
      simpa using hcs d hd
    have h2 : existing.find?
        (fun doc => doc.doc_fingerprint == some fingerprint) = none := by
      rw [List.find?_eq_none]
      intro d hd
      simpa using hfp d hd
    simp [check_duplicate, h1, h2]

/-- Sample existing-record list: one record matching both the checksum and
the fingerprint used below. -/
def sample_docs : List ExistingDoc :=
  [{ checksum_sha256 := some "cs1", doc_fingerprint := some "fp1" }]

/-- Witness for C3 at concrete inputs: the record matches both checksum
and fingerprint, and the checksum verdict wins. -/
theorem claim_C3_dedupe_priority_witness :
    check_duplicate "cs1" "fp1" sample_docs =
      (DedupeStatus.duplicate,
        [⟨.duplicate, .high, "validation.checksum_sha256"⟩]) :=
  (claim_C3_dedupe_priority "cs1" "fp1" sample_docs).1
    ⟨⟨some "cs1", some "fp1"⟩, by simp [sample_docs], rfl⟩

/-- Number of ledger rows carrying a given `doc_id`. -/
def countId (l : List LRow) (id : String) : ℕ :=
  l.countP (fun e => e.doc_id == id)

theorem add_entry_replace (pre post : List LRow) (old row : LRow)
    (hpre : ∀ e ∈ pre, e.doc_id ≠ row.doc_id)
    (hold : old.doc_id = row.doc_id) :
    add_entry (pre ++ old :: post) row = pre ++ row :: post := by
  induction pre with
  | nil => simp [add_entry, hold]
  | cons e pre ih =>
    have he : e.doc_id ≠ row.doc_id := hpre e (by simp)
    simp [add_entry, he, ih (fun x hx => hpre x (by simp [hx]))]

theorem add_entry_of_no_match (l : List LRow) (row : LRow)
    (h : ∀ e ∈ l, e.doc_id ≠ row.doc_id) :
    add_entry l row = l ++ [row] := by
  induction l with
  | nil => rfl
  | cons e rest ih =>
    simp [add_entry, h e (by simp), ih (fun x hx => h x (by simp [hx]))]

theorem add_entry_decomp (l : List LRow) (row : LRow) :
    (∀ e ∈ l, e.doc_id ≠ row.doc_id) ∨
    ∃ pre old post, l = pre ++ old :: post ∧
      (∀ e ∈ pre, e.doc_id ≠ row.doc_id) ∧ old.doc_id = row.doc_id := by
  induction l with
  | nil => left; simp
  | cons e rest ih =>
    by_cases he : e.doc_id = row.doc_id
    · right; exact ⟨[], e, rest, by simp, by simp, he⟩
    · rcases ih with h | ⟨pre, old, post, hl, hpre, hold⟩
      · left
        intro x hx
        rcases List.mem_cons.mp hx with rfl | hx
        · exact he
        · exact h x hx
      · right
        refine ⟨e :: pre, old, post, by simp [hl], ?_, hold⟩
        intro x hx
        rcases List.mem_cons.mp hx with rfl | hx
        · exact he
        · exact hpre x hx

theorem countId_eq_zero (l : List LRow) (id : String)
    (h : ∀ e ∈ l, e.doc_id ≠ id) : countId l id = 0 := by
  rw [countId, List.countP_eq_zero]
  intro e he
  simp [h e he]

theorem mem_add_entry_self (l : List LRow) (row : LRow) :
    row ∈ add_entry l row := by
  induction l with
  | nil => simp [add_entry]
  | cons e rest ih =>
    by_cases he : e.doc_id = row.doc_id <;> simp [add_entry, he, ih]

theorem countId_append (l1 l2 : List LRow) (id : String) :
    countId (l1 ++ l2) id = countId l1 id + countId l2 id := by
  simp [countId, List.countP_append]

theorem countId_cons (a : LRow) (l : List LRow) (id : String) :
    countId (a :: l) id = countId l id + (if a.doc_id = id then 1 else 0) := by
  simp [countId, List.countP_cons]

theorem countId_add_entry_le_one (l : List LRow) (row : LRow)
    (h : ∀ id, countId l id ≤ 1) :
    ∀ id, countId (add_entry l row) id ≤ 1 := by
  intro id
  rcases add_entry_decomp l row with hno | ⟨pre, old, post, rfl, hpre, hold⟩
  · rw [add_entry_of_no_match l row hno, countId_append]
    have h2 : countId [row] id ≤ 1 := by
      by_cases hid : row.doc_id = id <;> simp [countId, hid]
    by_cases hid : row.doc_id = id
    · have h0 : countId l id = 0 := by
        rw [← hid]
        exact countId_eq_zero l _ hno
      omega
    · have := h id
      have h1 : countId [row] id = 0 := by
        simp [countId, hid]
      omega
  · rw [add_entry_replace pre post old row hpre hold, countId_append,
      countId_cons]
    have horig := h id
    rw [countId_append, countId_cons] at horig
    by_cases hid : row.doc_id = id
    · have h0 : countId pre id = 0 := by
        rw [← hid]
        exact countId_eq_zero pre _ hpre
      rw [if_pos (hold.trans hid)] at horig
      rw [if_pos hid]
      omega
    · rw [if_neg hid]
      by_cases hold2 : old.doc_id = id
      · rw [if_pos hold2] at horig
        omega
      · rw [if_neg hold2] at horig
        omega

/-- C4: the ledger `add_entry` is an upsert keyed by `doc_id`: a row whose
`doc_id` already occurs (first at some position, with no earlier match) is
replaced in place, keeping the ledger length; an absent `doc_id` is
appended; every ledger reachable from the empty one has at most one row
per `doc_id`; and adding two rows with the same `doc_id` to a
duplicate-free ledger leaves exactly one row with that `doc_id`, the
latest one. -/
theorem claim_C4_ledger_upsert :
    (∀ (pre post : List LRow) (old row : LRow),
      (∀ e ∈ pre, e.doc_id ≠ row.doc_id) → old.doc_id = row.doc_id →
      add_entry (pre ++ old :: post) row = pre ++ row :: post ∧
      (add_entry (pre ++ old :: post) row).length =
        (pre ++ old :: post).length) ∧
    (∀ (l : List LRow) (row : LRow),
      (∀ e ∈ l, e.doc_id ≠ row.doc_id) → add_entry l row = l ++ [row]) ∧
    (∀ (l : List LRow), ReachableLedger l → ∀ id, countId l id ≤ 1) ∧
    (∀ (l : List LRow) (r1 r2 : LRow),
      (∀ id, countId l id ≤ 1) → r1.doc_id = r2.doc_id →
      countId (add_entry (add_entry l r1) r2) r2.doc_id = 1 ∧
      r2 ∈ add_entry (add_entry l r1) r2) := by
  refine ⟨?_, add_entry_of_no_match, ?_, ?_⟩
  · intro pre post old row hpre hold
    refine ⟨add_entry_replace pre post old row hpre hold, ?_⟩
    rw [add_entry_replace pre post old row hpre hold]
    simp
  · intro l hreach
    induction hreach with
    | nil => intro id; simp [countId]
    | step l row _ ih => exact countId_add_entry_le_one l row ih
  · intro l r1 r2 huniq _
    have h1 : ∀ id, countId (add_entry (add_entry l r1) r2) id ≤ 1 :=
      countId_add_entry_le_one _ r2 (countId_add_entry_le_one _ r1 huniq)
    have hmem : r2 ∈ add_entry (add_entry l r1) r2 :=
      mem_add_entry_self _ r2
    have hpos : 0 < countId (add_entry (add_entry l r1) r2) r2.doc_id := by
      rw [countId, List.countP_pos_iff]
      exact ⟨r2, hmem, by simp⟩
    exact ⟨Nat.le_antisymm (h1 r2.doc_id) hpos, hmem⟩

/-- Witness for C4 at concrete inputs: replacing in place, and exactly one
row after adding the same `doc_id` twice. -/
theorem claim_C4_ledger_upsert_witness :
    (add_entry [LRow.mk "a" "x", LRow.mk "b" "y"] (LRow.mk "b" "z") =
        [LRow.mk "a" "x"] ++ LRow.mk "b" "z" :: [] ∧
      (add_entry [LRow.mk "a" "x", LRow.mk "b" "y"] (LRow.mk "b" "z")).length =
        [LRow.mk "a" "x", LRow.mk "b" "y"].length) ∧
    (countId (add_entry (add_entry [] (LRow.mk "b" "y")) (LRow.mk "b" "z")) "b" = 1 ∧
      LRow.mk "b" "z" ∈ add_entry (add_entry [] (LRow.mk "b" "y")) (LRow.mk "b" "z")) :=
  ⟨claim_C4_ledger_upsert.1 [LRow.mk "a" "x"] [] (LRow.mk "b" "y")
      (LRow.mk "b" "z") (by decide) rfl,
   claim_C4_ledger_upsert.2.2.2 [] (LRow.mk "b" "y") (LRow.mk "b" "z")
      (by intro id; simp [countId]) rfl⟩

/-- Test for a HIGH-severity MATH_MISMATCH flag. -/
def isHighMath : ValidationFlag → Bool
  | ⟨FlagType.math_mismatch, FlagSeverity.high, _⟩ => true
  | _ => false

/-- Number of HIGH-severity MATH_MISMATCH flags in a flag list. -/
def count_high_math (flags : List ValidationFlag) : ℕ :=
  flags.countP isHighMath

theorem chm_append (l1 l2 : List ValidationFlag) :
    count_high_math (l1 ++ l2) = count_high_math l1 + count_high_math l2 := by
  simp [count_high_math, List.countP_append]

theorem chm_validate_dates (dates : Dates) (today : ℤ) :
    count_high_math (validate_dates dates today) = 0 := by
  unfold validate_dates
  rcases dates with ⟨i, d⟩
  cases i <;> cases d <;> dsimp only <;> (try split_ifs) <;> rfl

theorem chm_validate_tax (amounts : Amounts) (currency : String)
    (vat_rules : List (String × ℚ)) :
    count_high_math (validate_tax amounts currency vat_rules) = 0 := by
  unfold validate_tax
  rcases hvr : vat_rules.lookup currency with _ | r <;>
    simp only [hvr] <;> (try split_ifs) <;> rfl

theorem chm_validate_currency (currency : String) :
    count_high_math (validate_currency currency) = 0 := by
  unfold validate_currency
  split_ifs <;> rfl

theorem chm_validate_vendor (vendor : Vendor) :
    count_high_math (validate_vendor vendor) = 0 := by
  unfold validate_vendor
  split_ifs <;> rfl

theorem chm_check_duplicate (checksum fingerprint : String)
    (existing : List ExistingDoc) :
    count_high_math (check_duplicate checksum fingerprint existing).2 = 0 := by
  unfold check_duplicate
  rcases hfind : existing.find?
      (fun doc => doc.checksum_sha256 == some checksum) with _ | v
  · rcases hfind2 : existing.find?
        (fun doc => doc.doc_fingerprint == some fingerprint) with _ | w <;>
      simp only [hfind, hfind2] <;> rfl
  · simp only [hfind]
    rfl

theorem chm_math_within (amounts : Amounts) (line_items : List LineItem)
    (h : |amounts.subtotal + amounts.tax_amount + amounts.shipping.getD 0 -
      amounts.discount.getD 0 - amounts.grand_total| ≤ EPSILON) :
    count_high_math (validate_math amounts line_items) = 0 := by
  unfold validate_math
  simp only [chm_append]
  rw [if_neg (not_lt.mpr h)]
  split_ifs <;> simp [count_high_math, isHighMath]

theorem chm_math_beyond (amounts : Amounts) (line_items : List LineItem)
    (h : EPSILON < |amounts.subtotal + amounts.tax_amount +
      amounts.shipping.getD 0 - amounts.discount.getD 0 -
      amounts.grand_total|) :
    count_high_math (validate_math amounts line_items) = 1 := by
  unfold validate_math
  simp only [chm_append]
  rw [if_pos h]
  split_ifs <;> simp [count_high_math, isHighMath]

/-- C2: over the full validation pipeline, when the recomputed total
matches the grand total within 0.02 there is no HIGH MATH_MISMATCH flag,
and when the difference is at least 0.03 there is exactly one (the
line-item check only ever adds a MEDIUM flag). -/
theorem claim_C2_math_mismatch_flag :
    ∀ (profile : OrgProfile) (existing : List ExistingDoc) (pd : ParsedData)
      (checksum fingerprint : String) (today : ℤ),
      (|pd.amounts.subtotal + pd.amounts.tax_amount +
          pd.amounts.shipping.getD 0 - pd.amounts.discount.getD 0 -
          pd.amounts.grand_total| ≤ 2 / 100 →
        count_high_math
          (validate profile existing pd checksum fingerprint today).flags = 0) ∧
      (3 / 100 ≤ |pd.amounts.subtotal + pd.amounts.tax_amount +
          pd.amounts.shipping.getD 0 - pd.amounts.discount.getD 0 -
          pd.amounts.grand_total| →
        count_high_math
          (validate profile existing pd checksum fingerprint today).flags = 1) := by
  intro profile existing pd checksum fingerprint today
  have hrest : count_high_math (validate_dates pd.dates today) +
      (count_high_math
          (validate_tax pd.amounts pd.currency profile.vat_rules) +
        (count_high_math (validate_currency pd.currency) +
          (count_high_math (validate_vendor pd.vendor) +
            (count_high_math
                (check_duplicate checksum fingerprint existing).2 +
              count_high_math
                (if pd.confidence.getD 1 < 3 / 4 then
                  [⟨.ocr_low_confidence, .medium, "confidence"⟩]
                else []))))) = 0 := by
    rw [chm_validate_dates, chm_validate_tax, chm_validate_currency,
      chm_validate_vendor, chm_check_duplicate]
    split_ifs <;> simp [count_high_math, isHighMath]
  constructor <;> intro hd
  · show count_high_math _ = 0
    simp only [validate, chm_append]
    rw [chm_math_within pd.amounts pd.line_items (by exact_mod_cast hd)]
    omega
  · show count_high_math _ = 1
    simp only [validate, chm_append]
    have heps : EPSILON < |pd.amounts.subtotal + pd.amounts.tax_amount +
        pd.amounts.shipping.getD 0 - pd.amounts.discount.getD 0 -
        pd.amounts.grand_total| := by
      have : (EPSILON : ℚ) < 3 / 100 := by norm_num [EPSILON]
      linarith
    rw [chm_math_beyond pd.amounts pd.line_items heps]
    omega

/-- Sample parsed document whose grand total is off by 500 from the
recomputed total. -/
def sample_pd_bad_math : ParsedData :=
  { amounts :=
      { subtotal := 1500
        tax_amount := 0
        tax_rate := none
        shipping := none
        discount := none
        grand_total := 2000 }
    line_items := []
    dates := { issue_date := some 0, due_date := none }
    currency := "USD"
    vendor :=
      { display_name := "Acme"
        tax_id_vat := some "T1"
        email := none
        phone := none }
    confidence := some 1 }

/-- Sample organization profile. -/
def sample_profile : OrgProfile :=
  { fiscal_year_start_month := 1
    vat_rules := []
    project_codes := [("EDU001", "Education")]
    grant_dictionary := [("GR2023", { donor := some "UNICEF" })] }

/-- Witness for C2 at concrete inputs: a 500-unit mismatch produces exactly
one HIGH MATH_MISMATCH flag. -/
theorem claim_C2_math_mismatch_flag_witness :
    count_high_math
      (validate sample_profile [] sample_pd_bad_math "c" "f" 0).flags = 1 :=
  (claim_C2_math_mismatch_flag sample_profile [] sample_pd_bad_math
    "c" "f" 0).2 (by norm_num [sample_pd_bad_math])

/-- Cast of a four-element boolean count as a sum of indicator terms. -/
theorem count_true_four (p1 : Prop) (b2 : Bool) (p3 p4 : Prop)
    [Decidable p1] [Decidable p3] [Decidable p4] :
    (([decide p1, b2, decide p3, decide p4].count true : ℕ) : ℚ) =
      (if p1 then 1 else 0) + (if b2 then 1 else 0) +
        (if p3 then 1 else 0) + (if p4 then 1 else 0) := by
  by_cases h1 : p1 <;> cases b2 <;> by_cases h3 : p3 <;>
    by_cases h4 : p4 <;>
      simp [h1, h3, h4, List.count_cons] <;> norm_num

/-- C7: the confidence score produced by the validation pipeline equals
`round2 (clamp 0 1 (base × completeness − penalty))`, where completeness
is the fraction of the four fields vendor name, issue date, grand total
and currency that are present (Python-truthy), and the penalty counts the
HIGH and MEDIUM flags of the full final flag list at 0.15 and 0.05
each. -/
theorem claim_C7_confidence_score :
    ∀ (profile : OrgProfile) (existing : List ExistingDoc) (pd : ParsedData)
      (checksum fingerprint : String) (today : ℤ),
      (validate profile existing pd checksum fingerprint today).score_confidence =
        round2 (max 0 (min 1
          (pd.confidence.getD (9 / 10) *
              (((if pd.vendor.display_name ≠ "" then 1 else 0) +
                (if pd.dates.issue_date.isSome then 1 else 0) +
                (if pd.amounts.grand_total ≠ 0 then 1 else 0) +
                (if pd.currency ≠ "" then 1 else 0) : ℚ) / 4) -
            (((validate profile existing pd checksum fingerprint
                  today).flags.countP
                  (fun f => f.severity == FlagSeverity.high) : ℚ) * (15 / 100) +
              ((validate profile existing pd checksum fingerprint
                  today).flags.countP
                  (fun f => f.severity == FlagSeverity.medium) : ℚ) *
                (5 / 100))))) := by
  intro profile existing pd checksum fingerprint today
  conv_lhs => rw [validate]
  conv_rhs => rw [validate]
  rw [compute_confidence_score]
  rw [count_true_four]

/-- Parsed document for the clock-dependence counterexample: fully clean
except that its issue date sits 731 days before one of the two run
dates. -/
def sample_pd_c9 : ParsedData :=
  { amounts :=
      { subtotal := 0
        tax_amount := 0
        tax_rate := none
        shipping := none
        discount := none
        grand_total := 0 }
    line_items := []
    dates := { issue_date := some 0, due_date := none }
    currency := "USD"
    vendor :=
      { display_name := "Acme"
        tax_id_vat := some "T1"
        email := none
        phone := none }
    confidence := some 1 }

/-- Counterexample to C9 as stated: the validation output is not a function
of the explicit inputs alone — the same parsed fields, checksum,
fingerprint and existing records yield different flag lists when the run
date (Python `date.today()`) moves from day 0 to day 731, because of the
stale-issue-date check. -/
theorem usd_valid : valid_currencies.contains "USD" = true := by decide

theorem c9_flags_run1 :
    (validate sample_profile [] sample_pd_c9 "c" "f" 0).flags = [] := by
  norm_num [validate, validate_math, validate_dates, validate_tax,
    validate_currency, validate_vendor, check_duplicate, sample_pd_c9,
    sample_profile, strTruthy, usd_valid, EPSILON]
  decide

theorem c9_flags_run2 :
    (validate sample_profile [] sample_pd_c9 "c" "f" 731).flags =
      [⟨.suspicious_date, .medium, "dates.issue_date"⟩] := by
  norm_num [validate, validate_math, validate_dates, validate_tax,
    validate_currency, validate_vendor, check_duplicate, sample_pd_c9,
    sample_profile, strTruthy, usd_valid, EPSILON]
  decide

theorem claim_C9_counterexample :
    validate sample_profile [] sample_pd_c9 "c" "f" 0 ≠
      validate sample_profile [] sample_pd_c9 "c" "f" 731 := by
  intro h
  have hf := congrArg ValidationResult.flags h
  rw [c9_flags_run1, c9_flags_run2] at hf
  exact List.noConfusion hf

/-- Whether the stale-issue-date check fires for a given run date. -/
def staleCond : Option ℤ → ℤ → Bool
  | some issue, today => decide (730 < |issue - today|)
  | none, _ => false

theorem validate_dates_today (dates : Dates) (t1 t2 : ℤ)
    (h : staleCond dates.issue_date t1 = staleCond dates.issue_date t2) :
    validate_dates dates t1 = validate_dates dates t2 := by
  unfold validate_dates
  rcases dates with ⟨i, d⟩
  cases i with
  | none => rfl
  | some v =>
    have h' := h
    simp only [staleCond] at h'
    have hiff : (730 < |v - t1|) ↔ (730 < |v - t2|) := decide_eq_decide.mp h'
    dsimp only
    rw [if_congr hiff rfl rfl]

/-- C9 as amended: the validation pipeline is a deterministic pure function
of its explicit inputs together with the run date, and the run date enters
only through the stale-issue-date check: two runs whose dates give that
check the same verdict produce identical results. -/
theorem claim_C9_validate_clock_dependence :
    ∀ (profile : OrgProfile) (existing : List ExistingDoc) (pd : ParsedData)
      (checksum fingerprint : String) (t1 t2 : ℤ),
      staleCond pd.dates.issue_date t1 = staleCond pd.dates.issue_date t2 →
      validate profile existing pd checksum fingerprint t1 =
        validate profile existing pd checksum fingerprint t2 := by
  intro profile existing pd checksum fingerprint t1 t2 h
  unfold validate
  rw [validate_dates_today pd.dates t1 t2 h]

/-- Witness for the amended C9 at concrete inputs: two runs five days apart
with the same staleness verdict agree exactly. -/
theorem claim_C9_validate_clock_dependence_witness :
    staleCond sample_pd_c9.dates.issue_date 0 =
        staleCond sample_pd_c9.dates.issue_date 5 ∧
      validate sample_profile [] sample_pd_c9 "c" "f" 0 =
        validate sample_profile [] sample_pd_c9 "c" "f" 5 :=
  ⟨by decide,
   claim_C9_validate_clock_dependence sample_profile [] sample_pd_c9
     "c" "f" 0 5 (by decide)⟩

theorem digitVal_digitChar (n : ℕ) : digitVal (digitChar n) = n % 10 := by
  have h : n % 10 < 10 := Nat.mod_lt _ (by norm_num)
  unfold digitChar
  set k := n % 10 with hk
  interval_cases k <;> rfl

theorem digitsVal_append_singleton (a : List Char) (c : Char) :
    digitsVal (a ++ [c]) = 10 * digitsVal a + digitVal c := by
  simp [digitsVal, List.foldl_append]

theorem digitsVal_natDigits (n : ℕ) : digitsVal (natDigits n) = n := by
  induction n using Nat.strong_induction_on with
  | _ n ih =>
    rw [natDigits_eq]
    split_ifs with h
    · simp [digitsVal, digitVal_digitChar, Nat.mod_eq_of_lt h]
    · rw [digitsVal_append_singleton, ih (n / 10) (Nat.div_lt_self (by omega) (by omega)),
        digitVal_digitChar]
      omega

theorem natDigits_inj (m n : ℕ) (h : natDigits m = natDigits n) : m = n := by
  rw [← digitsVal_natDigits m, ← digitsVal_natDigits n, h]

theorem natDigits_length_two (n : ℕ) (h1 : 10 ≤ n) (h2 : n < 100) :
    (natDigits n).length = 2 := by
  rw [natDigits_eq, if_neg (by omega), natDigits_eq, if_pos (by omega)]
  rfl

theorem pad2_length (n : ℕ) (h : n < 100) : (pad2 n).length = 2 := by
  unfold pad2
  split_ifs with h1
  · rfl
  · exact natDigits_length_two n (by omega) h

theorem digitsVal_pad2 (n : ℕ) (_h : n < 100) : digitsVal (pad2 n) = n := by
  unfold pad2
  split_ifs with h1
  · have hn : digitVal (digitChar n) = n := by
      rw [digitVal_digitChar, Nat.mod_eq_of_lt h1]
    have hz : digitVal '0' = 0 := rfl
    simp [digitsVal, hn, hz]
  · exact digitsVal_natDigits n

theorem cents_digits_inj (m n : ℕ) (h : cents_digits m = cents_digits n) :
    m = n := by
  unfold cents_digits at h
  have hlen : (pad2 (m % 100)).length = (pad2 (n % 100)).length := by
    rw [pad2_length _ (Nat.mod_lt _ (by norm_num)),
      pad2_length _ (Nat.mod_lt _ (by norm_num))]
  obtain ⟨h1, h2⟩ := List.append_inj' h hlen
  have e1 : m / 100 = n / 100 := natDigits_inj _ _ h1
  have e2 : m % 100 = n % 100 := by
    rw [← digitsVal_pad2 (m % 100) (Nat.mod_lt _ (by norm_num)),
      ← digitsVal_pad2 (n % 100) (Nat.mod_lt _ (by norm_num)), h2]
  omega

theorem amt_cents_nonneg (a : ℚ) (h : 0 ≤ a) : 0 ≤ amt_cents a := by
  rw [amt_cents, round_eq]
  exact Int.le_floor.mpr (by push_cast; linarith)

theorem amt_str_inj_of_nonneg (a1 a2 : ℚ) (h1 : 0 ≤ a1) (h2 : 0 ≤ a2)
    (h : amt_str a1 = amt_str a2) : amt_cents a1 = amt_cents a2 := by
  rw [amt_str, amt_str] at h
  rw [if_neg (not_lt.mpr (amt_cents_nonneg a1 h1)),
    if_neg (not_lt.mpr (amt_cents_nonneg a2 h2))] at h
  have hd := congrArg String.data h
  simp only [String.data] at hd
  have := cents_digits_inj _ _ hd
  have n1 := amt_cents_nonneg a1 h1
  have n2 := amt_cents_nonneg a2 h2
  omega

theorem amt_cents_1500 : amt_cents 1500 = 150000 := by
  rw [amt_cents, round_eq, Int.floor_eq_iff]
  norm_num

theorem amt_cents_1500_4 : amt_cents (1500 + 2 / 5) = 150040 := by
  rw [amt_cents, round_eq, Int.floor_eq_iff]
  norm_num

/-- Counterexample to C6 as stated: 1500.00 and 1500.40 have the same
integer truncation, yet the fingerprint formats the amount with its two
decimal digits (the dot removed), so the two hashed pre-images differ. -/
theorem claim_C6_counterexample :
    intPy 1500 = intPy (1500 + 2 / 5) ∧
    fingerprint_str "Acme Corp" none none 1500 ≠
      fingerprint_str "Acme Corp" none none (1500 + 2 / 5) := by
  constructor
  · have ha : ⌊(1500 : ℚ)⌋ = (1500 : ℤ) := by
      rw [Int.floor_eq_iff]
      norm_num
    have hb : ⌊(1500 + 2 / 5 : ℚ)⌋ = (1500 : ℤ) := by
      rw [Int.floor_eq_iff]
      norm_num
    rw [intPy, intPy, if_pos (by norm_num), if_pos (by norm_num), ha, hb]
  · have e1 : fingerprint_str "Acme Corp" none none 1500 =
        "acmecorp_NODATE_NOINV_150000" := by
      simp only [fingerprint_str, amt_str, amt_cents_1500]
      rfl
    have e2 : fingerprint_str "Acme Corp" none none (1500 + 2 / 5) =
        "acmecorp_NODATE_NOINV_150040" := by
      simp only [fingerprint_str, amt_str, amt_cents_1500_4]
      rfl
    rw [e1, e2]
    decide

/-- C6 as amended: the fingerprint pre-image is invariant under vendor
spellings with the same normalization (case folding, stripping of
non-word characters), and it is determined by the amount through its
two-decimal cent value: equal cents give equal pre-images, while
different cents (in particular, a different integer part) give different
pre-images. -/
theorem claim_C6_fingerprint_normalization :
    ∀ (v1 v2 : String) (d : Option FpDate) (inv : Option String)
      (a a1 a2 : ℚ),
      (fingerprint_vendor_norm v1 = fingerprint_vendor_norm v2 →
        fingerprint_str v1 d inv a = fingerprint_str v2 d inv a) ∧
      (amt_cents a1 = amt_cents a2 →
        fingerprint_str v1 d inv a1 = fingerprint_str v1 d inv a2) ∧
      (0 ≤ a1 → 0 ≤ a2 → amt_cents a1 ≠ amt_cents a2 →
        fingerprint_str v1 d inv a1 ≠ fingerprint_str v1 d inv a2) := by
  intro v1 v2 d inv a a1 a2
  refine ⟨?_, ?_, ?_⟩
  · intro h
    unfold fingerprint_str
    rw [h]
  · intro h
    unfold fingerprint_str
    rw [amt_str, amt_str, h]
  · intro h1 h2 hne heq
    apply hne
    apply amt_str_inj_of_nonneg a1 a2 h1 h2
    unfold fingerprint_str at heq
    have hd := congrArg String.data heq
    simp only [String.data_append] at hd
    have hll := List.append_cancel_left hd
    exact String.ext hll

/-- Witness for the amended C6 at concrete inputs: case and punctuation
changes of the vendor leave the pre-image unchanged, while a 0.40 change
of the amount changes it. -/
theorem claim_C6_fingerprint_normalization_witness :
    fingerprint_str "ACME Corp." none none 1500 =
        fingerprint_str "acme corp" none none 1500 ∧
      fingerprint_str "Acme Corp" none none 1500 ≠
        fingerprint_str "Acme Corp" none none (1500 + 2 / 5) :=
  ⟨(claim_C6_fingerprint_normalization "ACME Corp." "acme corp" none none
      1500 0 0).1 (by decide),
   (claim_C6_fingerprint_normalization "Acme Corp" "Acme Corp" none none 0
      1500 (1500 + 2 / 5)).2.2 (by norm_num) (by norm_num)
     (by rw [amt_cents_1500, amt_cents_1500_4]; decide)⟩

theorem truncate_name_length (s : String) (k : ℕ) :
    (truncate_name s k).length ≤ k := by
  unfold truncate_name
  split_ifs with h
  · exact h
  · show (s.data.take k).length ≤ k
    simp

/-- Vendor name longer than 30 characters after sanitization. -/
def long_vendor : String := "Extremely Long Vendor Name Company International"

/-- Counterexample to C8 as stated: the vendor segment of the folder path
is the sanitized vendor name without any truncation, and exceeds 30
characters for a long vendor name. -/
theorem claim_C8_counterexample :
    ¬ ((build_folder_path_parts sample_profile "2023-2024" none none
        long_vendor DocType.invoice).getD 3 "").length ≤ 30 := by
  decide

/-- C8 as amended: in the folder path the project short-name part is at
most 20 characters and the grant donor short-name part at most 15, but
the vendor segment is the sanitized vendor name, not truncated; the
30-character vendor truncation applies to the vendor component of the
file name. -/
theorem claim_C8_segment_bounds :
    ∀ (profile : OrgProfile) (fiscal_year : String)
      (project_code grant_code : Option String) (vendor_name : String)
      (doc_type : DocType),
      (∀ code, project_code = some code → code ≠ "" →
        ∃ short,
          (build_folder_path_parts profile fiscal_year project_code
              grant_code vendor_name doc_type).getD 1 "" =
            code ++ "-" ++ short ∧ short.length ≤ 20) ∧
      (∀ code, grant_code = some code → code ≠ "" →
        ∃ short,
          (build_folder_path_parts profile fiscal_year project_code
              grant_code vendor_name doc_type).getD 2 "" =
            code ++ "-" ++ short ∧ short.length ≤ 15) ∧
      (build_folder_path_parts profile fiscal_year project_code grant_code
          vendor_name doc_type).getD 3 "" = sanitize_name vendor_name ∧
      (∀ (d : FpDate) (inv : Option String) (amount : ℚ) (currency : String)
          (status : Status),
        (build_file_name_parts d vendor_name inv project_code grant_code
            amount currency status).getD 1 "" =
          truncate_name (sanitize_name vendor_name) 30 ∧
        (truncate_name (sanitize_name vendor_name) 30).length ≤ 30) := by
  intro profile fiscal_year project_code grant_code vendor_name doc_type
  refine ⟨?_, ?_, ?_, ?_⟩
  · intro code hc hne
    subst hc
    refine ⟨truncate_name
      ((profile.project_codes.lookup code).getD "Unknown") 20, ?_, ?_⟩
    · simp [build_folder_path_parts, strTruthy, hne]
    · exact truncate_name_length _ _
  · intro code hc hne
    subst hc
    refine ⟨truncate_name
      (match profile.grant_dictionary.lookup code with
       | some info => info.donor.getD "Unknown"
       | none => "Unknown") 15, ?_, ?_⟩
    · simp [build_folder_path_parts, strTruthy, hne]
    · exact truncate_name_length _ _
  · simp [build_folder_path_parts]
  · intro d inv amount currency status
    exact ⟨by simp [build_file_name_parts], truncate_name_length _ _⟩

/-- Witness for the amended C8 at concrete inputs. -/
theorem claim_C8_segment_bounds_witness :
    (∃ short,
      (build_folder_path_parts sample_profile "2023-2024" (some "EDU001")
          (some "GR2023") "Acme Corp" DocType.invoice).getD 1 "" =
        "EDU001" ++ "-" ++ short ∧ short.length ≤ 20) ∧
    (∃ short,
      (build_folder_path_parts sample_profile "2023-2024" (some "EDU001")
          (some "GR2023") "Acme Corp" DocType.invoice).getD 2 "" =
        "GR2023" ++ "-" ++ short ∧ short.length ≤ 15) :=
  ⟨(claim_C8_segment_bounds sample_profile "2023-2024" (some "EDU001")
      (some "GR2023") "Acme Corp" DocType.invoice).1 "EDU001" rfl (by decide),
   (claim_C8_segment_bounds sample_profile "2023-2024" (some "EDU001")
      (some "GR2023") "Acme Corp" DocType.invoice).2.1 "GR2023" rfl
     (by decide)⟩


theorem splitUS_no_sep (p : List Char) (h : hasUS p = false) :
    splitUS p = [p] := by
  induction p with
  | nil => rfl
  | cons c p ih =>
    cases p with
    | nil => rfl
    | cons c2 p2 =>
      have h' : ¬(c = '_' ∧ c2 = '_') ∧ hasUS (c2 :: p2) = false := by
        simpa [hasUS] using h
      show splitUS (c :: c2 :: p2) = [c :: c2 :: p2]
      rw [splitUS, if_neg h'.1, ih h'.2]
      rfl

theorem splitUS_sep_append (p t : List Char) (hUS : hasUS p = false)
    (hlast : p.getLast? ≠ some '_') :
    splitUS (p ++ '_' :: '_' :: t) = p :: splitUS t := by
  induction p with
  | nil =>
    show splitUS ('_' :: '_' :: t) = [] :: splitUS t
    rw [splitUS, if_pos ⟨rfl, rfl⟩]
  | cons c p' ih =>
    cases p' with
    | nil =>
      have hc : c ≠ '_' := by
        simpa [List.getLast?] using hlast
      show splitUS (c :: '_' :: '_' :: t) = [c] :: splitUS t
      rw [splitUS, if_neg (by simp [hc]), splitUS, if_pos ⟨rfl, rfl⟩]
      rfl
    | cons c2 p2 =>
      have h' : ¬(c = '_' ∧ c2 = '_') ∧ hasUS (c2 :: p2) = false := by
        simpa [hasUS] using hUS
      have hlast' : (c2 :: p2).getLast? ≠ some '_' := by
        rwa [List.getLast?_cons_cons] at hlast
      show splitUS (c :: ((c2 :: p2) ++ '_' :: '_' :: t)) = _
      have hcc : (c2 :: p2) ++ '_' :: '_' :: t = c2 :: (p2 ++ '_' :: '_' :: t) := rfl
      rw [hcc, splitUS, if_neg h'.1, ← hcc, ih h'.2 hlast']
      rfl

theorem splitUS_joinUS (ps : List (List Char)) (hne : ps ≠ [])
    (hgood : ∀ p ∈ ps, hasUS p = false ∧ p.getLast? ≠ some '_') :
    splitUS (joinUS ps) = ps := by
  induction ps with
  | nil => exact absurd rfl hne
  | cons p ps' ih =>
    cases ps' with
    | nil =>
      show splitUS (joinUS [p]) = [p]
      rw [joinUS]
      exact splitUS_no_sep p (hgood p (by simp)).1
    | cons q ps2 =>
      rw [joinUS, splitUS_sep_append p (joinUS (q :: ps2))
        (hgood p (by simp)).1 (hgood p (by simp)).2]
      rw [ih (by simp) (fun x hx => hgood x (by simp [hx]))]

theorem rsplit_dot_no_dot (e : List Char) (h : '.' ∉ e) :
    rsplit_dot e = (e, none) := by
  induction e with
  | nil => rfl
  | cons c e' ih =>
    have hc : c ≠ '.' := fun hc => h (by simp [hc])
    have he : '.' ∉ e' := fun he => h (by simp [he])
    rw [rsplit_dot, ih he]
    simp [hc]

theorem rsplit_dot_append (a e : List Char) (he : '.' ∉ e) :
    rsplit_dot (a ++ '.' :: e) = (a, some e) := by
  induction a with
  | nil =>
    show rsplit_dot ('.' :: e) = ([], some e)
    rw [rsplit_dot, rsplit_dot_no_dot e he]
    simp
  | cons c a' ih =>
    show rsplit_dot (c :: (a' ++ '.' :: e)) = (c :: a', some e)
    rw [rsplit_dot, ih]

/-- Values of `Status` are clean file-name components. -/
theorem status_value_clean (st : Status) :
    hasUS st.value.data = false ∧ (st.value.data).getLast? ≠ some '_' := by
  cases st <;> exact ⟨by decide, by decide⟩

theorem update_filename_scheme (comps : List (List Char)) (ext : List Char)
    (st : Status) (hlen : 2 ≤ comps.length)
    (hgood : ∀ p ∈ comps, hasUS p = false ∧ p.getLast? ≠ some '_')
    (hext : '.' ∉ ext) :
    update_filename_status (String.mk (joinUS comps ++ '.' :: ext)) st =
      String.mk (joinUS (comps.dropLast ++ [st.value.data]) ++ '.' :: ext) := by
  have hne : comps ≠ [] := by
    intro h
    rw [h] at hlen
    simp at hlen
  unfold update_filename_status
  have h1 : rsplit_dot (String.mk (joinUS comps ++ '.' :: ext)).data =
      (joinUS comps, some ext) := rsplit_dot_append _ _ hext
  rw [h1]
  have h2 : splitUS (joinUS comps) = comps := splitUS_joinUS comps hne hgood
  dsimp only
  rw [h2, if_pos hlen]

theorem trailing_status_scheme (comps : List (List Char)) (ext : List Char)
    (hne : comps ≠ [])
    (hgood : ∀ p ∈ comps, hasUS p = false ∧ p.getLast? ≠ some '_')
    (hext : '.' ∉ ext) :
    trailing_status (String.mk (joinUS comps ++ '.' :: ext)) =
      String.mk (comps.getLastD []) := by
  unfold trailing_status
  have h1 : rsplit_dot (String.mk (joinUS comps ++ '.' :: ext)).data =
      (joinUS comps, some ext) := rsplit_dot_append _ _ hext
  rw [h1, splitUS_joinUS comps hne hgood]

/-- Counterexample to C5 as stated: a transition call that raises for a
missing approver leaves the record with status `approved` while the file
name still carries the old trailing component `draft` — the invariant is
not preserved by every raising call. -/
theorem claim_C5_counterexample :
    trailing_status sample_fi.file_name = sample_fi.status.value ∧
    isErrorB (transition sample_fi Status.approved none 0).1 = true ∧
    (transition sample_fi Status.approved none 0).2.status = Status.approved ∧
    trailing_status (transition sample_fi Status.approved none 0).2.file_name ≠
      (transition sample_fi Status.approved none 0).2.status.value := by
  refine ⟨by decide, by decide, by decide, by decide⟩

/-- C5 as amended: for a scheme-produced file name the invariant "the
trailing file-name component equals the current status" is preserved by
every successful transition (the trailing component is regenerated to the
new status) and by every raising call except the missing-approver one,
which leaves the record unchanged only in the other failure branches. -/
theorem claim_C5_filename_status_invariant :
    ∀ (comps : List (List Char)) (ext : List Char) (fi : FilingInfo)
      (new_status : Status) (approver : Option String) (now : ℤ),
      fi.file_name = String.mk (joinUS comps ++ '.' :: ext) →
      2 ≤ comps.length →
      (∀ p ∈ comps, hasUS p = false ∧ p.getLast? ≠ some '_') →
      '.' ∉ ext →
      (∀ fi', (transition fi new_status approver now).1 = Except.ok fi' →
        trailing_status fi'.file_name = fi'.status.value) ∧
      (isErrorB (transition fi new_status approver now).1 = true →
        ¬(new_status = Status.approved ∧ strTruthy approver = false) →
        (transition fi new_status approver now).2 = fi) := by
  intro comps ext fi new_status approver now hname hlen hgood hext
  have hkey : trailing_status (update_filename_status fi.file_name new_status) =
      new_status.value := by
    rw [hname, update_filename_scheme comps ext new_status hlen hgood hext]
    rw [trailing_status_scheme (comps.dropLast ++ [new_status.value.data]) ext
      (by simp) ?_ hext]
    · rw [List.getLastD_eq_getLast?, List.getLast?_concat]
      rfl
    · intro p hp
      rcases List.mem_append.mp hp with hp | hp
      · exact hgood p (List.mem_of_mem_dropLast hp)
      · rw [List.mem_singleton.mp hp]
        exact status_value_clean new_status
  constructor
  · intro fi' hok
    unfold transition at hok
    by_cases h1 : can_transition fi.status new_status = true
    · by_cases h2 : new_status = Status.posted ∧ fi.has_high_severity_flags = true
      · obtain ⟨h2a, h2b⟩ := h2
        subst h2a
        simp [h1, h2b] at hok
      · by_cases h3 : new_status = Status.approved ∧ ¬ strTruthy approver = true
        · obtain ⟨h3a, h3b⟩ := h3
          subst h3a
          simp [h1, h2, h3b] at hok
        · simp only [h1, h2, h3, not_true_eq_false, if_neg, if_false,
            not_false_eq_true, if_true, ite_not, Except.ok.injEq] at hok
          rw [← hok]
          dsimp only
          simp only [apply_ite FilingInfo.file_name, apply_ite FilingInfo.status,
            ite_self]
          exact hkey
    · simp [h1] at hok
  · intro herr hexcl
    unfold transition at herr ⊢
    by_cases h1 : can_transition fi.status new_status = true
    · by_cases h2 : new_status = Status.posted ∧ fi.has_high_severity_flags = true
      · obtain ⟨h2a, h2b⟩ := h2
        subst h2a
        simp [h1, h2b]
      · by_cases h3 : new_status = Status.approved ∧ ¬ strTruthy approver = true
        · exact absurd ⟨h3.1, by simpa using h3.2⟩ hexcl
        · have h3' : ¬(new_status = Status.approved ∧ strTruthy approver = false) := by
            simpa using h3
          simp [h1, h2, h3', isErrorB] at herr
    · simp [h1]

/-- File-name components of the sample record. -/
def sample_comps : List (List Char) :=
  ["2024-03-15".data, "acme".data, "inv001".data, "NOPROJ".data,
   "NOGRANT".data, "1500USD".data, "draft".data]

/-- Witness for the amended C5 at concrete inputs: a successful transition
to `needs_review` regenerates the trailing component. -/
theorem claim_C5_filename_status_invariant_witness :
    trailing_status
        (transition sample_fi Status.needs_review none 0).2.file_name =
      (transition sample_fi Status.needs_review none 0).2.status.value :=
  (claim_C5_filename_status_invariant sample_comps "pdf".data sample_fi
      Status.needs_review none 0 (by decide) (by decide) (by decide)
      (by decide)).1 _ rfl


end InvoiceFiler
